import Mathlib

/-!
Verification of the pitch-timing and at-bat resolution engine of the
baseball timing minigame.

The definitions below are a shallow embedding of the TypeScript source:

* `src/game/types.ts`          — `Runners`, `HitResult`
* `src/game/constants`         — `CONTACT_PROGRESS`, `PERFECT`, `GOOD`, `OKAY`, `FOUL`
* `src/game/utils`             — `clamp`, `lerp`, `plateTimeMsFromMph`, `advanceBases`
* `src/screens/ScreenBaseballTiming.tsx`
                               — `doSwing` (classification ladder), the end-of-flight
                                 branch of `startPitch`, `settleResult`, the
                                 three-out `useEffect`, and `resetAll`.

JavaScript numbers are modelled as exact rationals (`ℚ`); every constant in
the source is a short decimal literal, so the arithmetic the engine performs
on them is exact.  The random cosmetic fields of a hit (`exitVelo`,
`launchDeg`, `distance`) are display-only outputs of `Math.random`-driven
sampling and never influence scoring or control flow; they are omitted from
the embedded `HitResult`, which keeps the `kind` tag and `timingDelta`.
-/

namespace Baseball

/-- Runner occupancy state, mirroring `type Runners = { on1; on2; on3 }`. -/
structure Runners where
  on1 : Bool
  on2 : Bool
  on3 : Bool
deriving DecidableEq, Repr

/-- The empty-diamond state `{ on1: false, on2: false, on3: false }`. -/
def emptyBases : Runners := { on1 := false, on2 := false, on3 := false }

/-- Read of the array `arr = [state.on1, state.on2, state.on3]` at index `i`
(0 = first base, 1 = second, 2 = third); out-of-range reads are `false`. -/
def baseAt (r : Runners) (i : Nat) : Bool :=
  match i with
  | 0 => r.on1
  | 1 => r.on2
  | 2 => r.on3
  | _ => false

/-- The assignment `nextArr[j] = true`; in the source this is only executed
under the guard `j < 3`, so larger indices leave the state unchanged. -/
def setBaseAt (r : Runners) (j : Nat) : Runners :=
  match j with
  | 0 => { r with on1 := true }
  | 1 => { r with on2 := true }
  | 2 => { r with on3 := true }
  | _ => r

/-- Number of occupied bases, `arr.filter(Boolean).length`. -/
def countRunners (r : Runners) : Nat :=
  (if r.on1 then 1 else 0) + (if r.on2 then 1 else 0) + (if r.on3 then 1 else 0)

/-- One iteration of the `for (let i = 2; i >= 0; i--)` loop body of
`advanceBases`: if base `i` of the input `state` is occupied, the runner
either scores (`i + n >= 3`) or occupies target index `i + n` of the
accumulated next state. -/
def moveRunner (state : Runners) (n i : Nat) (acc : Runners × Nat) : Runners × Nat :=
  if baseAt state i then
    if 3 ≤ i + n then (acc.1, acc.2 + 1) else (setBaseAt acc.1 (i + n), acc.2)
  else acc

/-- Embedding of `advanceBases(state, n)` from `src/game/utils`.  The loop is
unrolled in source order `i = 2, 1, 0`.  The batter index is `n - 1`; all
call sites of the source pass `n ∈ {1,2,3}` (and the `n >= 4` branch handles a
home-run-style sweep), so natural-number subtraction agrees with the source
on every reachable argument. -/
def advanceBases (state : Runners) (n : Nat) : Runners × Nat :=
  if 4 ≤ n then
    (emptyBases, countRunners state + 1)
  else
    let acc0 : Runners × Nat := (emptyBases, 0)
    let acc1 := moveRunner state n 2 acc0
    let acc2 := moveRunner state n 1 acc1
    let acc3 := moveRunner state n 0 acc2
    let batterIndex := n - 1
    if 3 ≤ batterIndex then (acc3.1, acc3.2 + 1) else (setBaseAt acc3.1 batterIndex, acc3.2)

/-- Progress value at which the ball reaches the plate (`CONTACT_PROGRESS = 0.86`). -/
def CONTACT_PROGRESS : ℚ := 0.86

/-- Perfect-contact threshold (`PERFECT = 0.010`). -/
def PERFECT : ℚ := 0.010

/-- Good-contact threshold (`GOOD = 0.020`). -/
def GOOD : ℚ := 0.020

/-- Okay-contact threshold (`OKAY = 0.035`). -/
def OKAY : ℚ := 0.035

/-- Foul cutoff (`FOUL = 0.055`); any larger delta is a whiff. -/
def FOUL : ℚ := 0.055

/-- Reason attached to a strike result. -/
inductive StrikeReason where
  | early
  | late
  | miss
deriving DecidableEq, Repr

/-- Embedding of the `HitResult` tagged union of `src/game/types.ts`; the
random cosmetic fields of hit variants are omitted (see module comment). -/
inductive HitResult where
  | strike (reason : StrikeReason)
  | foul (timingDelta : ℚ)
  | single (timingDelta : ℚ)
  | double (timingDelta : ℚ)
  | triple (timingDelta : ℚ)
  | homerun (timingDelta : ℚ)
deriving DecidableEq, Repr

/-- Classification core of `doSwing` in `ScreenBaseballTiming.tsx`, as a
function of the sampled progress `t` at the moment of the swing (the source
only runs it while a pitch is in flight).  `none` models the final `else`
branch: no immediate verdict, the pitch continues. -/
def doSwing (t : ℚ) : Option HitResult :=
  let delta := |t - CONTACT_PROGRESS|
  if delta ≤ PERFECT then some (.homerun delta)
  else if delta ≤ GOOD then some (.double delta)
  else if delta ≤ OKAY then
    some (if delta < OKAY * 0.6 then .double delta else .single delta)
  else if delta ≤ FOUL then some (.foul delta)
  else none

/-- End-of-flight branch of the RAF loop in `startPitch` (the `t >= 1` case),
as a function of the recorded swing progress `swingAtRef.current`
(`none` = never set, `some t` = a swing was recorded at progress `t`).
The source tests `!swingAtRef.current`, which is true both for `null` and
for the number `0`, so a swing recorded at progress exactly 0 takes the
miss branch; the embedding reproduces that truthiness test faithfully. -/
def endOfFlight (swingAt : Option ℚ) : Option HitResult :=
  match swingAt with
  | none => some (.strike .miss)
  | some t =>
    if t = 0 then some (.strike .miss)
    else
      let d := |t - CONTACT_PROGRESS|
      if FOUL < d then
        some (.strike (if t < CONTACT_PROGRESS then .early else .late))
      else none

/-- Embedding of `clamp(v, lo, hi) = Math.max(lo, Math.min(hi, v))`. -/
def clamp (v lo hi : ℚ) : ℚ := max lo (min hi v)

/-- Embedding of `lerp(a, b, t) = a + (b - a) * t`. -/
def lerp (a b t : ℚ) : ℚ := a + (b - a) * t

/-- Embedding of `plateTimeMsFromMph` from `src/game/utils`:
`lerp(2000, 400, clamp((mph - 20) / (100 - 20), 0, 1))`.  Note the source
doc comment advertises a 70 mph → 600 ms mapping, but the formula maps
70 mph to 1000 ms (and reaches 2000 ms only at 20 mph and below). -/
def plateTimeMsFromMph (mph : ℚ) : ℚ :=
  lerp 2000 400 (clamp ((mph - 20) / (100 - 20)) 0 1)

/-- Game-session state: the React state block of `ScreenBaseballTiming`
(fields in source declaration order; the presentation-only `assistBar`
toggle and the pitch configuration are outside the session state). -/
structure GameState where
  inPlay : Bool
  progress : ℚ
  result : Option HitResult
  strikes : Nat
  outs : Nat
  runs : Nat
  pitches : Nat
  maxPitches : Nat
  gameOver : Bool
  runners : Runners
deriving DecidableEq, Repr

/-- Embedding of `settleResult(r)`: stores the result and applies the
scoring rules of its `kind` to the session counters and runners. -/
def settleResult (r : HitResult) (g0 : GameState) : GameState :=
  let g := { g0 with result := some r }
  match r with
  | .strike _ =>
    let ns := g.strikes + 1
    if 3 ≤ ns then { g with outs := g.outs + 1, strikes := 0 }
    else { g with strikes := ns }
  | .foul _ =>
    { g with strikes := if g.strikes < 2 then g.strikes + 1 else 2,
             maxPitches := g.maxPitches + 1 }
  | .homerun _ =>
    { g with runs := g.runs + 5 + countRunners g.runners,
             runners := emptyBases,
             strikes := 0 }
  | .single _ =>
    let res := advanceBases g.runners 1
    { g with runs := g.runs + 1 + res.2, runners := res.1, strikes := 0 }
  | .double _ =>
    let res := advanceBases g.runners 2
    { g with runs := g.runs + 1 + res.2, runners := res.1, strikes := 0 }
  | .triple _ =>
    let res := advanceBases g.runners 3
    { g with runs := g.runs + 1 + res.2, runners := res.1, strikes := 0 }

/-- Embedding of the three-out `useEffect`: when `outs >= 3`, reset outs and
strikes to 0 and clear the bases; otherwise no change. -/
def threeOutEffect (g : GameState) : GameState :=
  if 3 ≤ g.outs then { g with outs := 0, strikes := 0, runners := emptyBases }
  else g

/-- Embedding of `resetAll`: zeroes strikes, outs, runs and pitches, clears
the result, ends any flight, zeroes progress, clears the bases and clears
game-over.  The source does not touch `maxPitches`. -/
def resetAll (g : GameState) : GameState :=
  { g with strikes := 0, outs := 0, runs := 0, pitches := 0, result := none,
           inPlay := false, progress := 0, runners := emptyBases,
           gameOver := false }

/-- Base-advance relation written from the specification text (for the
refinement claim about `advanceBases`): target index `j = i + n` for each
occupied source `i`, score when `j >= 3`, batter placed at `n - 1` (scoring
when `n - 1 >= 3`), `scored` totalling every runner who crossed home. -/
def advanceBasesSpec (s : Runners) (n : Nat) : Runners × Nat :=
  let occAt : Nat → Bool := fun j =>
    (decide (n - 1 < 3) && decide (j = n - 1))
    || (baseAt s 0 && decide (0 + n = j))
    || (baseAt s 1 && decide (1 + n = j))
    || (baseAt s 2 && decide (2 + n = j))
  let scored :=
    (if baseAt s 0 && decide (3 ≤ 0 + n) then 1 else 0)
    + (if baseAt s 1 && decide (3 ≤ 1 + n) then 1 else 0)
    + (if baseAt s 2 && decide (3 ≤ 2 + n) then 1 else 0)
    + (if 3 ≤ n - 1 then 1 else 0)
  ({ on1 := occAt 0, on2 := occAt 1, on3 := occAt 2 }, scored)

/-- C1: for every runner occupancy state and every n in {1,2,3}, `advanceBases`
moves each occupied base at index i to target j = i + n, scoring when j >= 3
and otherwise occupying j, then places the batter at index n - 1 (scoring when
n - 1 >= 3), with `scored` totalling the runners who crossed home — i.e. it
coincides with the relation `advanceBasesSpec` written from the claim; no
runner is merged away (occupancy plus scored is conserved); and with runners
on first and third and n = 1, the third-base runner scores, the first-base
runner moves to second, the batter occupies first, and scored = 1. -/
theorem advanceBases_matches_spec :
    (∀ (a b c : Bool) (n : Nat), n = 1 ∨ n = 2 ∨ n = 3 →
      advanceBases ⟨a, b, c⟩ n = advanceBasesSpec ⟨a, b, c⟩ n
      ∧ (advanceBases ⟨a, b, c⟩ n).2 + countRunners (advanceBases ⟨a, b, c⟩ n).1
          = countRunners ⟨a, b, c⟩ + 1)
    ∧ advanceBases ⟨true, false, true⟩ 1 = (⟨true, true, false⟩, 1) := by
  constructor
  · intro a b c n hn
    rcases hn with rfl | rfl | rfl <;> revert a b c <;> decide
  · decide

/-- Witness for C1 at runners on first and third with n = 1. -/
theorem advanceBases_matches_spec_witness :
    advanceBases ⟨true, false, true⟩ 1 = advanceBasesSpec ⟨true, false, true⟩ 1
    ∧ (advanceBases ⟨true, false, true⟩ 1).2
        + countRunners (advanceBases ⟨true, false, true⟩ 1).1
        = countRunners ⟨true, false, true⟩ + 1 :=
  advanceBases_matches_spec.1 true false true 1 (Or.inl rfl)

/-- C10: for every runner occupancy state and every n >= 1, `advanceBases`
conserves people: scored plus the occupancy of the returned state equals the
occupancy of the input state plus one (the batter). -/
theorem advanceBases_conserves_runners (a b c : Bool) (n : Nat) (hn : 1 ≤ n) :
    (advanceBases ⟨a, b, c⟩ n).2 + countRunners (advanceBases ⟨a, b, c⟩ n).1
      = countRunners ⟨a, b, c⟩ + 1 := by
  by_cases h4 : 4 ≤ n
  · simp [advanceBases, h4, countRunners, emptyBases]
  · have h3 : n ≤ 3 := by omega
    interval_cases n <;> revert a b c <;> decide

/-- Witness for C10 at runners on first and second with n = 2. -/
theorem advanceBases_conserves_runners_witness :
    (advanceBases ⟨true, true, false⟩ 2).2
        + countRunners (advanceBases ⟨true, true, false⟩ 2).1
      = countRunners ⟨true, true, false⟩ + 1 :=
  advanceBases_conserves_runners true true false 2 (by decide)

/-- C2: the swing classification follows the first-match decision ladder on
delta = |progressAtSwing - CONTACT_PROGRESS|: within PERFECT a homerun,
within GOOD a double, within OKAY a double iff delta < OKAY * 0.6 and a
single otherwise (boundary-exact: at delta = OKAY * 0.6 the result is a
single), within FOUL a foul, and beyond FOUL no immediate verdict. -/
theorem doSwing_decision_ladder (t : ℚ) :
    (|t - CONTACT_PROGRESS| ≤ PERFECT →
        doSwing t = some (.homerun |t - CONTACT_PROGRESS|))
    ∧ (PERFECT < |t - CONTACT_PROGRESS| → |t - CONTACT_PROGRESS| ≤ GOOD →
        doSwing t = some (.double |t - CONTACT_PROGRESS|))
    ∧ (GOOD < |t - CONTACT_PROGRESS| → |t - CONTACT_PROGRESS| ≤ OKAY →
        |t - CONTACT_PROGRESS| < OKAY * 0.6 →
        doSwing t = some (.double |t - CONTACT_PROGRESS|))
    ∧ (GOOD < |t - CONTACT_PROGRESS| → |t - CONTACT_PROGRESS| ≤ OKAY →
        OKAY * 0.6 ≤ |t - CONTACT_PROGRESS| →
        doSwing t = some (.single |t - CONTACT_PROGRESS|))
    ∧ (|t - CONTACT_PROGRESS| = OKAY * 0.6 →
        doSwing t = some (.single |t - CONTACT_PROGRESS|))
    ∧ (OKAY < |t - CONTACT_PROGRESS| → |t - CONTACT_PROGRESS| ≤ FOUL →
        doSwing t = some (.foul |t - CONTACT_PROGRESS|))
    ∧ (FOUL < |t - CONTACT_PROGRESS| → doSwing t = none) := by
  have h06 : OKAY * (0.6 : ℚ) = 21 / 1000 := by norm_num [OKAY]
  have hP : PERFECT = 1 / 100 := by norm_num [PERFECT]
  have hG : GOOD = 1 / 50 := by norm_num [GOOD]
  have hO : OKAY = 7 / 200 := by norm_num [OKAY]
  have hF : FOUL = 11 / 200 := by norm_num [FOUL]
  simp only [doSwing, h06, hP, hG, hO, hF]
  split_ifs with h1 h2 h3 h4 h5 <;>
    refine ⟨?_, ?_, ?_, ?_, ?_, ?_, ?_⟩ <;> intros <;> first | rfl | linarith

/-- Witness for C2 at the boundary delta = OKAY * 0.6 (swing progress 0.881,
delta 0.021): the result is a single. -/
theorem doSwing_decision_ladder_witness :
    doSwing (0.881 : ℚ) = some (.single |(0.881 : ℚ) - CONTACT_PROGRESS|) :=
  (doSwing_decision_ladder (0.881 : ℚ)).2.2.2.2.1
    (by rw [abs_of_nonneg (by norm_num [CONTACT_PROGRESS])]; norm_num [CONTACT_PROGRESS, OKAY])

/-- C3 (code evaluated at the failing input): a swing recorded at progress 0
has delta |0 - CONTACT_PROGRESS| = 0.86, beyond the foul cutoff, on the early
side (0 < CONTACT_PROGRESS), so the claim requires strike early — yet the
end-of-flight handler produces strike miss, because the truthiness test
`!swingAtRef.current` conflates the number 0 with null.  A genuinely absent
swing also produces strike miss, as claimed. -/
theorem endOfFlight_zero_progress_swing :
    endOfFlight (some 0) = some (.strike .miss)
    ∧ endOfFlight (some 0) ≠ some (.strike .early)
    ∧ FOUL < |(0 : ℚ) - CONTACT_PROGRESS|
    ∧ (0 : ℚ) < CONTACT_PROGRESS
    ∧ endOfFlight none = some (.strike .miss) := by
  refine ⟨by decide, by decide, ?_, by norm_num [CONTACT_PROGRESS], rfl⟩
  rw [zero_sub, abs_neg, abs_of_nonneg (by norm_num [CONTACT_PROGRESS])]
  norm_num [FOUL, CONTACT_PROGRESS]

/-- C4: applying a foul increments strikes only while strikes < 2, leaves
strikes at 2 when already at 2 (so a foul never completes a strikeout — outs
are untouched), and grows the max-pitch limit by exactly one. -/
theorem settleResult_foul_rules (g : GameState) (d : ℚ) :
    ((settleResult (.foul d) g).strikes = if g.strikes < 2 then g.strikes + 1 else 2)
    ∧ (settleResult (.foul d) g).maxPitches = g.maxPitches + 1
    ∧ (settleResult (.foul d) g).outs = g.outs
    ∧ (g.strikes = 2 → (settleResult (.foul d) g).strikes = 2) := by
  refine ⟨rfl, rfl, rfl, fun h => ?_⟩
  simp [settleResult, h]

/-- Witness for C4 at a state with strikes already at 2. -/
theorem settleResult_foul_rules_witness :
    ((settleResult (.foul (1 / 20))
        { inPlay := false, progress := 0, result := none, strikes := 2, outs := 1,
          runs := 0, pitches := 3, maxPitches := 5, gameOver := false,
          runners := emptyBases }).strikes = if (2 : Nat) < 2 then 2 + 1 else 2)
    ∧ (settleResult (.foul (1 / 20))
        { inPlay := false, progress := 0, result := none, strikes := 2, outs := 1,
          runs := 0, pitches := 3, maxPitches := 5, gameOver := false,
          runners := emptyBases }).maxPitches = 5 + 1
    ∧ (settleResult (.foul (1 / 20))
        { inPlay := false, progress := 0, result := none, strikes := 2, outs := 1,
          runs := 0, pitches := 3, maxPitches := 5, gameOver := false,
          runners := emptyBases }).outs = 1
    ∧ ((2 : Nat) = 2 → (settleResult (.foul (1 / 20))
        { inPlay := false, progress := 0, result := none, strikes := 2, outs := 1,
          runs := 0, pitches := 3, maxPitches := 5, gameOver := false,
          runners := emptyBases }).strikes = 2) :=
  settleResult_foul_rules
    { inPlay := false, progress := 0, result := none, strikes := 2, outs := 1,
      runs := 0, pitches := 3, maxPitches := 5, gameOver := false,
      runners := emptyBases } (1 / 20)

/-- C5: applying a strike increments strikes, rolling over at 3 into one
additional out with strikes reset to 0, and never touches runs or runners;
three consecutive strikes from a 0-strike count yield exactly one out with
strikes 0, and a fourth strike then brings the count to 1. -/
theorem settleResult_strike_rules (g : GameState) (r : StrikeReason) :
    (g.strikes + 1 ≥ 3 →
        (settleResult (.strike r) g).outs = g.outs + 1
        ∧ (settleResult (.strike r) g).strikes = 0)
    ∧ (g.strikes + 1 < 3 →
        (settleResult (.strike r) g).strikes = g.strikes + 1
        ∧ (settleResult (.strike r) g).outs = g.outs)
    ∧ (settleResult (.strike r) g).runs = g.runs
    ∧ (settleResult (.strike r) g).runners = g.runners
    ∧ (g.strikes = 0 →
        (settleResult (.strike r) (settleResult (.strike r)
            (settleResult (.strike r) g))).outs = g.outs + 1
        ∧ (settleResult (.strike r) (settleResult (.strike r)
            (settleResult (.strike r) g))).strikes = 0
        ∧ (settleResult (.strike r) (settleResult (.strike r) (settleResult (.strike r)
            (settleResult (.strike r) g)))).strikes = 1) := by
  refine ⟨fun h3 => ?_, fun hlt => ?_, ?_, ?_, fun h0 => ?_⟩
  · have : 3 ≤ g.strikes + 1 := h3
    constructor <;> simp [settleResult, this]
  · have : ¬ 3 ≤ g.strikes + 1 := by omega
    constructor <;> simp [settleResult, this]
  · simp [settleResult]
    split <;> rfl
  · simp [settleResult]
    split <;> rfl
  · refine ⟨?_, ?_, ?_⟩ <;> simp [settleResult, h0]

/-- Witness for C5 at a 2-strike state (rollover case) and the 0-strike
three-in-a-row case. -/
theorem settleResult_strike_rules_witness :
    ((2 : Nat) + 1 ≥ 3 →
        (settleResult (.strike .miss)
          { inPlay := false, progress := 0, result := none, strikes := 2, outs := 0,
            runs := 4, pitches := 3, maxPitches := 5, gameOver := false,
            runners := emptyBases }).outs = 0 + 1
        ∧ (settleResult (.strike .miss)
          { inPlay := false, progress := 0, result := none, strikes := 2, outs := 0,
            runs := 4, pitches := 3, maxPitches := 5, gameOver := false,
            runners := emptyBases }).strikes = 0)
    ∧ (settleResult (.strike .miss)
          { inPlay := false, progress := 0, result := none, strikes := 2, outs := 0,
            runs := 4, pitches := 3, maxPitches := 5, gameOver := false,
            runners := emptyBases }).runs = 4 :=
  ⟨fun h3 => ((settleResult_strike_rules
      { inPlay := false, progress := 0, result := none, strikes := 2, outs := 0,
        runs := 4, pitches := 3, maxPitches := 5, gameOver := false,
        runners := emptyBases } .miss).1 h3),
   (settleResult_strike_rules
      { inPlay := false, progress := 0, result := none, strikes := 2, outs := 0,
        runs := 4, pitches := 3, maxPitches := 5, gameOver := false,
        runners := emptyBases } .miss).2.2.1⟩

/-- C6: applying a homerun adds 5 plus the current number of occupied bases
to runs, clears all bases and resets strikes to 0; with bases loaded the
gain is 5 + 3 = 8. -/
theorem settleResult_homerun_rules (g : GameState) (d : ℚ) :
    (settleResult (.homerun d) g).runs = g.runs + 5 + countRunners g.runners
    ∧ (settleResult (.homerun d) g).runners = emptyBases
    ∧ (settleResult (.homerun d) g).strikes = 0
    ∧ (g.runners = ⟨true, true, true⟩ →
        (settleResult (.homerun d) g).runs = g.runs + 8) := by
  refine ⟨rfl, rfl, rfl, fun h => ?_⟩
  show g.runs + 5 + countRunners g.runners = g.runs + 8
  rw [h]
  simp [countRunners]

/-- Witness for C6 at a bases-loaded state. -/
theorem settleResult_homerun_rules_witness :
    (settleResult (.homerun (1 / 200))
        { inPlay := false, progress := 0, result := none, strikes := 1, outs := 0,
          runs := 2, pitches := 3, maxPitches := 5, gameOver := false,
          runners := ⟨true, true, true⟩ }).runs
      = 2 + 5 + countRunners ⟨true, true, true⟩
    ∧ (settleResult (.homerun (1 / 200))
        { inPlay := false, progress := 0, result := none, strikes := 1, outs := 0,
          runs := 2, pitches := 3, maxPitches := 5, gameOver := false,
          runners := ⟨true, true, true⟩ }).runs = 2 + 8 :=
  ⟨(settleResult_homerun_rules
      { inPlay := false, progress := 0, result := none, strikes := 1, outs := 0,
        runs := 2, pitches := 3, maxPitches := 5, gameOver := false,
        runners := ⟨true, true, true⟩ } (1 / 200)).1,
   (settleResult_homerun_rules
      { inPlay := false, progress := 0, result := none, strikes := 1, outs := 0,
        runs := 2, pitches := 3, maxPitches := 5, gameOver := false,
        runners := ⟨true, true, true⟩ } (1 / 200)).2.2.2 rfl⟩

/-- C7: when outs reaches 3, the three-out effect resets outs and strikes to
0 and clears the bases, and changes nothing else — the result is exactly the
input state with those three fields overwritten, so runs, pitch count,
max-pitch limit, game-over, in-flight flag, progress and last result are all
preserved. -/
theorem threeOutEffect_rules (g : GameState) (h : g.outs = 3) :
    threeOutEffect g = { g with outs := 0, strikes := 0, runners := emptyBases }
    ∧ (threeOutEffect g).runs = g.runs
    ∧ (threeOutEffect g).pitches = g.pitches
    ∧ (threeOutEffect g).maxPitches = g.maxPitches
    ∧ (threeOutEffect g).gameOver = g.gameOver
    ∧ (threeOutEffect g).result = g.result := by
  have h3 : 3 ≤ g.outs := by omega
  refine ⟨?_, ?_, ?_, ?_, ?_, ?_⟩ <;> simp [threeOutEffect, h3]

/-- Witness for C7 at a concrete state with three outs. -/
theorem threeOutEffect_rules_witness :
    threeOutEffect
        { inPlay := false, progress := 0, result := none, strikes := 1, outs := 3,
          runs := 6, pitches := 9, maxPitches := 12, gameOver := false,
          runners := ⟨true, false, true⟩ }
      = { inPlay := false, progress := 0, result := none, strikes := 0, outs := 0,
          runs := 6, pitches := 9, maxPitches := 12, gameOver := false,
          runners := emptyBases } :=
  (threeOutEffect_rules
      { inPlay := false, progress := 0, result := none, strikes := 1, outs := 3,
        runs := 6, pitches := 9, maxPitches := 12, gameOver := false,
        runners := ⟨true, false, true⟩ } rfl).1

/-- C8 (counterexample): reset does not yield one identical state regardless
of the prior state — two reachable states that differ only in the max-pitch
limit (which grows by one per foul and is never reset) reset to different
states. -/
theorem resetAll_depends_on_prior_state :
    resetAll
        { inPlay := false, progress := 0, result := none, strikes := 0, outs := 0,
          runs := 0, pitches := 0, maxPitches := 5, gameOver := false,
          runners := emptyBases }
      ≠ resetAll
        { inPlay := false, progress := 0, result := none, strikes := 0, outs := 0,
          runs := 0, pitches := 0, maxPitches := 6, gameOver := false,
          runners := emptyBases } := by
  decide

/-- C8 (amended): reset zeroes strikes, outs, runs and the pitch count,
clears the last result and all bases, ends any flight, zeroes progress and
clears game-over, and is idempotent — but it preserves the max-pitch limit,
so reset states of two prior states coincide exactly when the prior states
agree on the max-pitch limit. -/
theorem resetAll_spec (g : GameState) :
    (resetAll g).strikes = 0
    ∧ (resetAll g).outs = 0
    ∧ (resetAll g).runs = 0
    ∧ (resetAll g).pitches = 0
    ∧ (resetAll g).result = none
    ∧ (resetAll g).inPlay = false
    ∧ (resetAll g).progress = 0
    ∧ (resetAll g).runners = emptyBases
    ∧ (resetAll g).gameOver = false
    ∧ (resetAll g).maxPitches = g.maxPitches
    ∧ resetAll (resetAll g) = resetAll g := by
  refine ⟨rfl, rfl, rfl, rfl, rfl, rfl, rfl, rfl, rfl, rfl, rfl⟩

/-- C9 (counterexample): at the minimum configured velocity (70 mph) the
flight duration is 1000 ms, not approximately 2000 ms — the mapping only
reaches 2000 ms at 20 mph and below, outside the configuration bounds. -/
theorem plateTime_at_min_velocity :
    plateTimeMsFromMph 70 = 1000 ∧ ¬ (1800 ≤ plateTimeMsFromMph 70) := by
  norm_num [plateTimeMsFromMph, lerp, clamp]

/-- C9 (amended): on the configured velocity range 70–100 the duration
mapping is strictly decreasing, its values always lie between 400 ms and
2000 ms, and the endpoints of the configured range map to exactly 400 ms
(at 100 mph) and 1000 ms (at 70 mph). -/
theorem plateTime_strict_mono_bounded (v1 v2 : ℚ)
    (h1 : 70 ≤ v1) (h12 : v1 < v2) (h2 : v2 ≤ 100) :
    plateTimeMsFromMph v2 < plateTimeMsFromMph v1
    ∧ (∀ v : ℚ, 400 ≤ plateTimeMsFromMph v ∧ plateTimeMsFromMph v ≤ 2000)
    ∧ plateTimeMsFromMph 100 = 400
    ∧ plateTimeMsFromMph 70 = 1000 := by
  have hcl : ∀ v : ℚ, 70 ≤ v → v ≤ 100 →
      plateTimeMsFromMph v = 2000 + (400 - 2000) * ((v - 20) / 80) := by
    intro v hv1 hv2
    have h0 : (0 : ℚ) ≤ (v - 20) / 80 := by
      apply div_nonneg <;> linarith
    have hle : (v - 20) / 80 ≤ 1 := by
      rw [div_le_one (by norm_num)]
      linarith
    unfold plateTimeMsFromMph clamp lerp
    rw [show ((100 : ℚ) - 20) = 80 by norm_num, min_eq_right hle, max_eq_right h0]
  refine ⟨?_, ?_, ?_, ?_⟩
  · rw [hcl v1 h1 (by linarith), hcl v2 (by linarith) h2]
    have hdiv : (v1 - 20) / 80 < (v2 - 20) / 80 := by
      apply div_lt_div_of_pos_right ?_ (by norm_num)
      linarith
    nlinarith
  · intro v
    have h0 : (0 : ℚ) ≤ clamp ((v - 20) / (100 - 20)) 0 1 := le_max_left 0 _
    have h1c : clamp ((v - 20) / (100 - 20)) 0 1 ≤ 1 :=
      max_le (by norm_num) (min_le_left 1 _)
    unfold plateTimeMsFromMph lerp
    constructor <;> nlinarith
  · norm_num [plateTimeMsFromMph, lerp, clamp]
  · norm_num [plateTimeMsFromMph, lerp, clamp]

/-- Witness for the amended C9 at the endpoints of the configured range:
100 mph flies strictly faster than 70 mph. -/
theorem plateTime_strict_mono_bounded_witness :
    plateTimeMsFromMph 100 < plateTimeMsFromMph 70 :=
  (plateTime_strict_mono_bounded 70 100 (by norm_num) (by norm_num) (by norm_num)).1

end Baseball
